import Mathlib

/-!
Shallow embedding of `src/native/src/config.rs` from ricardobeat/node-swc:
configuration data model, the per-field `Merge` implementations, the
global-value inliner (`GlobalPassOption::build` / `mk_map`), and the pass
pipeline assembled by `Options::build`.

Modelling conventions:
* `HashMap` / `HashSet` values are modelled as association lists / lists of
  keys; the claims under study do not depend on hashing or deduplication.
* The external ECMAScript parser (the swc crate's `Parser::parse_module`,
  an external collaborator of this core) is a parameter
  `parse : String → Option (List (ModuleItem ε))`, polymorphic in the
  expression type `ε`; `none` models a parse error.
* Rust `panic!` inside `mk_map` is modelled as `Except.error` carrying
  exactly the data interpolated into the panic message.
* The built pass pipeline (`chain_at!`, lines 144‑172) is modelled as the
  list of pass names that actually run: an `Optional::new(p, cond)` pass
  contributes `p` exactly when `cond` holds.
-/

namespace NodeSwc

/-- Expression statement vs. any other statement, as matched by `mk_map`
(`Stmt::Expr(box expr)` vs. everything else). Polymorphic in the
expression type of the external parser. -/
inductive MStmt (ε : Type) where
  | expr (e : ε)
  | other
deriving DecidableEq

/-- Rust `ModuleItem`: a statement or a module-level declaration. -/
inductive ModuleItem (ε : Type) where
  | stmt (s : MStmt ε)
  | moduleDecl
deriving DecidableEq

/-- Model expression AST for witnesses: a string literal or some other
expression node (abstractly numbered). -/
inductive EsExpr where
  | str (value : String)
  | other (tag : Nat)
deriving DecidableEq

/-- The parser `Syntax` value, modelled by the predicate methods
`Options::build` consults (`jsx()`, `typescript()`, `decorators()`,
`class_props()`, `export_default_from()`, `export_namespace_from()`). -/
structure SyntaxCfg where
  jsx : Bool
  typescript : Bool
  decorators : Bool
  class_props : Bool
  export_default_from : Bool
  export_namespace_from : Bool
deriving DecidableEq

/-- Rust `Syntax::default()`: plain ES syntax, every extension off. -/
def SyntaxCfg.default : SyntaxCfg :=
  ⟨false, false, false, false, false, false⟩

/-- Rust `react::Options` (external type, merged by full replacement). -/
structure ReactOptions where
  pragma : String
  pragmaFrag : String
  throwIfNamespace : Bool
  development : Bool
  useBuiltins : Bool
deriving DecidableEq

def ReactOptions.default : ReactOptions :=
  ⟨"React.createElement", "React.Fragment", false, false, false⟩

/-- Rust `ConstModulesConfig { globals: HashMap<JsWord, HashMap<JsWord, String>> }`. -/
structure ConstModulesConfig where
  globals : List (String × List (String × String))
deriving DecidableEq

def ConstModulesConfig.default : ConstModulesConfig := ⟨[]⟩

/-- Rust `GlobalPassOption { vars, envs }` (lines 347‑354). -/
structure GlobalPassOption where
  vars : List (String × String)
  envs : List String
deriving DecidableEq

/-- Rust `default_envs()` (lines 356‑361): the serde default for the `envs`
field. -/
def default_envs : List String := ["NODE_ENV", "SWC_ENV"]

/-- The `#[derive(Default)]` instance of `GlobalPassOption`: every field
takes its std `Default` (empty map, empty set). The serde
`#[serde(default = "default_envs")]` attribute plays no part here. -/
def GlobalPassOption.defaultDerived : GlobalPassOption := ⟨[], []⟩

/-- Raw deserialization input for `GlobalPassOption`: which of the two
fields are present in the document. -/
structure GlobalPassOptionRaw where
  vars : Option (List (String × String))
  envs : Option (List String)

/-- serde deserialization of `GlobalPassOption`: absent `vars` defaults to
the empty map, absent `envs` defaults to `default_envs` (line 352). -/
def deserializeGlobalPassOption (r : GlobalPassOptionRaw) : GlobalPassOption :=
  { vars := r.vars.getD []
    envs := r.envs.getD default_envs }

/-- Rust `OptimizerConfig { globals: Option<GlobalPassOption> }`. -/
structure OptimizerConfig where
  globals : Option GlobalPassOption
deriving DecidableEq

/-- Rust `TransformConfig` (lines 320‑331). -/
structure TransformConfig where
  react : ReactOptions
  const_modules : Option ConstModulesConfig
  optimizer : Option OptimizerConfig
deriving DecidableEq

def TransformConfig.default : TransformConfig :=
  ⟨ReactOptions.default, none, none⟩

/-- Rust `JscTarget` (lines 273‑289), ordered oldest to newest. -/
inductive JscTarget where
  | es3
  | es5
  | es2015
  | es2016
  | es2017
  | es2018
  | es2019
deriving DecidableEq

/-- Rank realising the derived `Ord` order of `JscTarget`. -/
def JscTarget.rank : JscTarget → Nat
  | .es3 => 0
  | .es5 => 1
  | .es2015 => 2
  | .es2016 => 3
  | .es2017 => 4
  | .es2018 => 5
  | .es2019 => 6

/-- Rust `<=` on `JscTarget` (derived `PartialOrd`/`Ord`). -/
def JscTarget.le (a b : JscTarget) : Bool := a.rank ≤ b.rank

/-- Rust `<` on `JscTarget`. -/
def JscTarget.lt (a b : JscTarget) : Bool := a.rank < b.rank

/-- Rust `impl Default for JscTarget` (lines 291‑295): `Es3`. -/
def JscTarget.default : JscTarget := .es3

/-- Rust `modules::common_js::Config`, modelled by the field `Options::build`
reads (`no_interop`). -/
structure CommonJsConfig where
  no_interop : Bool
deriving DecidableEq

/-- Rust `modules::amd::Config`: carries a nested common-js config. -/
structure AmdConfig where
  config : CommonJsConfig
deriving DecidableEq

/-- Rust `modules::umd::Config`: carries a nested common-js config. -/
structure UmdConfig where
  config : CommonJsConfig
deriving DecidableEq

/-- Rust `ModuleConfig` (lines 297‑307): tagged choice of module format. -/
inductive ModuleConfig where
  | commonjs (c : CommonJsConfig)
  | umd (c : UmdConfig)
  | amd (c : AmdConfig)
deriving DecidableEq

/-- Rust `JscConfig` (lines 257‑271). -/
structure JscConfig where
  syntax_ : Option SyntaxCfg
  transform : Option TransformConfig
  external_helpers : Bool
  target : JscTarget
deriving DecidableEq

def JscConfig.default : JscConfig :=
  ⟨none, none, false, JscTarget.default⟩

/-- Rust `Config` (lines 235‑246): the `.swcrc` document. -/
structure Config where
  jsc : JscConfig
  module : Option ModuleConfig
  minify : Option Bool
deriving DecidableEq

def Config.default : Config := ⟨JscConfig.default, none, none⟩

/-- Rust `SourceMapsConfig` (lines 75‑80): bool or path string. -/
inductive SourceMapsConfig where
  | bool (b : Bool)
  | str (s : String)
deriving DecidableEq

/-- Rust `Options` (lines 29‑73), modelled by the fields `Options::build`
reads: the flattened config fragment and the `sourceMaps` field. -/
structure Options where
  config : Option Config
  source_maps : Option SourceMapsConfig

/-! ## The `Merge` trait (lines 433‑530)

Rust's `fn merge(&mut self, from: &Self)` mutates `self` in place; each
model function takes `(self, from)` and returns the updated `self`. -/

/-- Rust `impl<T> Merge for Option<T>` (lines 438‑452): absent override is a
no-op; present override recurses, or fills an absent base. -/
def mergeOption (m : α → α → α) : Option α → Option α → Option α
  | self, none => self
  | some v, some from_ => some (m v from_)
  | none, some from_ => some from_

/-- Rust `impl Merge for bool` (lines 488‑492): `*self |= *from`. -/
def mergeBoolFlag (self from_ : Bool) : Bool := self || from_

/-- Rust `impl Merge for JscTarget` (lines 471‑477): keep the larger target. -/
def JscTarget.merge (self from_ : JscTarget) : JscTarget :=
  if self.lt from_ then from_ else self

/-- Rust `impl Merge for Syntax` (lines 494‑498): full replacement. -/
def SyntaxCfg.merge (_self from_ : SyntaxCfg) : SyntaxCfg := from_

/-- Rust `impl Merge for react::Options` (lines 520‑524): full replacement. -/
def ReactOptions.merge (_self from_ : ReactOptions) : ReactOptions := from_

/-- Rust `impl Merge for ConstModulesConfig` (lines 526‑530): full replacement. -/
def ConstModulesConfig.merge (_self from_ : ConstModulesConfig) : ConstModulesConfig :=
  from_

/-- Rust `impl Merge for GlobalPassOption` (lines 514‑518): full replacement. -/
def GlobalPassOption.merge (_self from_ : GlobalPassOption) : GlobalPassOption :=
  from_

/-- Rust `impl Merge for Option<ModuleConfig>` (lines 479‑486): a present
override fully replaces the base. -/
def mergeModuleConfig (self from_ : Option ModuleConfig) : Option ModuleConfig :=
  match from_ with
  | some c2 => some c2
  | none => self

/-- Rust `impl Merge for OptimizerConfig` (lines 508‑512). -/
def OptimizerConfig.merge (self from_ : OptimizerConfig) : OptimizerConfig :=
  { globals := mergeOption GlobalPassOption.merge self.globals from_.globals }

/-- Rust `impl Merge for TransformConfig` (lines 500‑506). -/
def TransformConfig.merge (self from_ : TransformConfig) : TransformConfig :=
  { optimizer := mergeOption OptimizerConfig.merge self.optimizer from_.optimizer
    const_modules := mergeOption ConstModulesConfig.merge self.const_modules from_.const_modules
    react := self.react.merge from_.react }

/-- Rust `impl Merge for JscConfig` (lines 462‑469). -/
def JscConfig.merge (self from_ : JscConfig) : JscConfig :=
  { syntax_ := mergeOption SyntaxCfg.merge self.syntax_ from_.syntax_
    transform := mergeOption TransformConfig.merge self.transform from_.transform
    target := self.target.merge from_.target
    external_helpers := mergeBoolFlag self.external_helpers from_.external_helpers }

/-- Rust `impl Merge for Config` (lines 454‑460). -/
def Config.merge (self from_ : Config) : Config :=
  { jsc := self.jsc.merge from_.jsc
    module := mergeModuleConfig self.module from_.module
    minify := mergeOption mergeBoolFlag self.minify from_.minify }

/-! ## The global value inliner (`GlobalPassOption::build` / `mk_map`,
lines 363‑419) -/

/-- The two `panic!`s of `mk_map` (lines 395‑400 and 402‑405), carrying
exactly the data interpolated into each panic message: a parse failure
names the variable and the raw text; the not-an-expression failure names
only the raw text. -/
inductive MkMapError where
  | parseFailed (name : String) (text : String)
  | notExpression (text : String)
deriving DecidableEq

/-- A single quote character, `Char.ofNat 39`. -/
def squote : String := String.mk [Char.ofNat 39]

/-- The `let v = if is_env { format!(...) } else { ... }` step of `mk_map`
(lines 373‑377): environment values are wrapped in single quotes so they
parse as string literals. -/
def wrapGlobal (is_env : Bool) (v : String) : String :=
  if is_env then squote ++ v ++ squote else v

/-- One iteration of `mk_map`'s loop (lines 372‑408): wrap the value if it
is an environment entry, parse it as a module, pop the last item of the
module body (`Vec::pop`), and require it to be an expression statement. -/
def processEntry (parse : String → Option (List (ModuleItem ε))) (is_env : Bool)
    (kv : String × String) : Except MkMapError (String × ε) :=
  let v := wrapGlobal is_env kv.2
  match parse v with
  | none => .error (.parseFailed kv.1 v)
  | some body =>
    match body.getLast? with
    | some (.stmt (.expr e)) => .ok (kv.1, e)
    | _ => .error (.notExpression v)

/-- Rust `mk_map` (lines 365‑411): build the substitution map entry by entry,
in order; the first failing entry aborts (models the panic). -/
def mk_map (parse : String → Option (List (ModuleItem ε))) (is_env : Bool) :
    List (String × String) → Except MkMapError (List (String × ε))
  | [] => .ok []
  | kv :: rest =>
    match processEntry parse is_env kv with
    | .error e => .error e
    | .ok entry =>
      match mk_map parse is_env rest with
      | .error e => .error e
      | .ok m => .ok (entry :: m)

/-- The `InlineGlobals` pass parameters (substitution maps). -/
structure InlineGlobals (ε : Type) where
  globals : List (String × ε)
  envs : List (String × ε)
deriving DecidableEq

/-- Rust `GlobalPassOption::build` (lines 413‑418): `globals` from the `vars`
map, `envs` from the ambient environment variables (`env::vars()`,
modelled as the `envVars` parameter) filtered to the configured `envs`
name set. -/
def GlobalPassOption.build (self : GlobalPassOption)
    (parse : String → Option (List (ModuleItem ε)))
    (envVars : List (String × String)) : Except MkMapError (InlineGlobals ε) :=
  match mk_map parse false self.vars with
  | .error e => .error e
  | .ok globals =>
    match mk_map parse true (envVars.filter fun kv => self.envs.contains kv.1) with
    | .error e => .error e
    | .ok envs => .ok { globals := globals, envs := envs }

/-! ## Pipeline assembly (`Options::build`, lines 101‑190) -/

/-- The module-wrapping pass chosen by `ModuleConfig::build`
(lines 309‑318): a no-op when no format is configured, else the pass of
the configured format, carrying its config. -/
inductive ModuleWrapPass where
  | noop
  | commonjs (c : CommonJsConfig)
  | umd (c : UmdConfig)
  | amd (c : AmdConfig)
deriving DecidableEq

/-- Rust `ModuleConfig::build` (lines 309‑318). -/
def ModuleConfig.buildPass : Option ModuleConfig → ModuleWrapPass
  | none => .noop
  | some (.commonjs c) => .commonjs c
  | some (.umd c) => .umd c
  | some (.amd c) => .amd c

/-- Names of the passes chained by `Options::build` (lines 144‑172), in
source order. -/
inductive PassName where
  | react
  | typescriptStrip
  | resolver
  | constModules
  | inlineGlobals
  | decorators
  | classProperties
  | exportExtension
  | simplifier
  | es2018
  | es2017
  | es2016
  | es2015
  | es3
  | importAnalyzer
  | injectHelpers
  | moduleWrap (p : ModuleWrapPass)
  | hygiene
  | fixer
deriving DecidableEq

/-- Rust `Optional::new(p, cond)`: the pass runs exactly when `cond` holds. -/
def opt (p : PassName) (cond : Bool) : List PassName :=
  if cond then [p] else []

/-- Rust `need_interop_analysis` (lines 137‑142). -/
def needInteropAnalysis : Option ModuleConfig → Bool
  | some (.commonjs c) => !c.no_interop
  | some (.amd c) => !c.config.no_interop
  | some (.umd c) => !c.config.no_interop
  | none => false

/-- The `chain_at!` pass list of `Options::build` (lines 144‑172), as the
ordered list of passes that run for the given resolved inputs:
`syn` is the resolved syntax, `transform` the resolved transform config,
`enableOptimizer` is `transform.optimizer.is_some()`, `target` the
language target and `module` the module-format choice. -/
def buildPassList (syn : SyntaxCfg) (transform : TransformConfig)
    (enableOptimizer : Bool) (target : JscTarget)
    (module : Option ModuleConfig) : List PassName :=
  opt .react syn.jsx ++
  opt .typescriptStrip syn.typescript ++
  [.resolver] ++
  opt .constModules transform.const_modules.isSome ++
  [.inlineGlobals] ++
  opt .decorators syn.decorators ++
  opt .classProperties syn.class_props ++
  opt .exportExtension (syn.export_default_from || syn.export_namespace_from) ++
  opt .simplifier enableOptimizer ++
  opt .es2018 (target.le .es2018) ++
  opt .es2017 (target.le .es2017) ++
  opt .es2016 (target.le .es2016) ++
  opt .es2015 (target.le .es2015) ++
  opt .es3 (target.le .es3) ++
  opt .importAnalyzer (needInteropAnalysis module) ++
  [.injectHelpers, .moduleWrap (ModuleConfig.buildPass module), .hygiene, .fixer]

/-- Rust `BuiltConfig` (lines 248‑255); the pass pipeline is the list of pass
names that run. -/
structure BuiltConfig where
  pass : List PassName
  syntax_ : SyntaxCfg
  minify : Bool
  external_helpers : Bool
  source_maps : Bool
deriving DecidableEq

/-- The resolution of the optimizer-globals option inside `Options::build`
(lines 127‑135): `optimizer.map(|o| o.globals.unwrap_or_default())`,
falling back to `GlobalPassOption::default()` when no optimizer is
configured. Both fallbacks are the `#[derive(Default)]` value. -/
def resolveGlobals : Option OptimizerConfig → GlobalPassOption
  | some o => o.globals.getD GlobalPassOption.defaultDerived
  | none => GlobalPassOption.defaultDerived

/-- Rust `Options::build` (lines 101‑190). `parse` models the external parser,
`envVars` the ambient `env::vars()` snapshot; a `mk_map` panic while
building the inline-globals pass aborts the build (`Except.error`). -/
def Options.build (self : Options)
    (parse : String → Option (List (ModuleItem ε)))
    (envVars : List (String × String))
    (config : Option Config) : Except MkMapError BuiltConfig :=
  let config :=
    match self.config with
    | some c => (config.getD Config.default).merge c
    | none => config.getD Config.default
  let syn := config.jsc.syntax_.getD SyntaxCfg.default
  let transform := config.jsc.transform.getD TransformConfig.default
  match (resolveGlobals transform.optimizer).build parse envVars with
  | .error e => .error e
  | .ok _inlined =>
    .ok
      { pass := buildPassList syn transform transform.optimizer.isSome
          config.jsc.target config.module
        syntax_ := syn
        minify := config.minify.getD false
        external_helpers := config.jsc.external_helpers
        source_maps :=
          match self.source_maps with
          | some (.bool v) => v
          | some (.str _) => true
          | none => false }

/-! ## Deserialization schema (serde attributes and generated code)

`Options` (line 30) and `Config` (line 236) both carry
`#[serde(deny_unknown_fields, rename_all = "camelCase")]`, and `Options`
additionally flattens its `config` fragment (`#[serde(flatten)]`,
line 32). The generated deserializers are modelled at the key level: a
document is its list of top-level keys.

For `Config` the attribute is effective: the generated visitor rejects
any key outside its field list. For `Options`, however, serde documents
that `deny_unknown_fields` is NOT supported in combination with
`flatten`: the generated code matches only the named `Options` fields,
collects every other key into the flatten buffer, deserializes the
flattened `Option<Config>` by looking up `Config`'s fields in that
buffer through `FlatMapDeserializer` (which cannot raise unknown-field
errors — serde issue 1547), and silently discards the leftovers. No
unknown-key error is ever produced for an `Options` document. -/

/-- Top-level keys matching a named field of `Options` (lines 35‑72,
camel-cased). -/
def optionsNamedFieldKeys : List String :=
  ["cwd", "caller", "filename", "configFile", "root", "rootMode", "swcrc",
   "swcrcRoots", "envName", "inputSourceMap", "sourceMaps",
   "sourceFileName", "sourceRoot"]

/-- Top-level keys recognized when deserializing a `Config` (`.swcrc`)
document (lines 237‑246). -/
def configRecognizedKeys : List String := ["jsc", "module", "minify"]

/-- Rust `deny_unknown_fields` key validation as generated for a struct
without `flatten`: scan the document's keys and reject the first
unrecognized one. -/
def checkKnownKeys (recognized : List String) (doc : List String) :
    Except String Unit :=
  match doc.find? (fun k => decide (k ∉ recognized)) with
  | some k => .error ("unknown field " ++ k)
  | none => .ok ()

/-- The serde flatten buffer of an `Options` document: every top-level
key not matching a named `Options` field is collected here and offered
to the flattened `Config` deserializer. -/
def Options.flattenBuffer (doc : List String) : List String :=
  doc.filter (fun k => decide (k ∉ optionsNamedFieldKeys))

/-- The keys of an `Options` document that the generated deserializer
silently drops: buffered keys that `Config`'s field lookup does not
match either. `deny_unknown_fields` cannot fire through
`FlatMapDeserializer`, so these never cause an error. -/
def Options.droppedKeys (doc : List String) : List String :=
  (Options.flattenBuffer doc).filter (fun k => decide (k ∉ configRecognizedKeys))

/-- Deserialization of an `Options` document, key-validation aspect:
because of the `flatten` field, the generated code performs no
unknown-key check at all — it always succeeds, dropping
`Options.droppedKeys`. -/
def Options.deserializeKeys (_doc : List String) : Except String Unit :=
  .ok ()

/-- Deserialization of a `Config` document, key-validation aspect. -/
def Config.deserializeKeys (doc : List String) : Except String Unit :=
  checkKnownKeys configRecognizedKeys doc

/-! ## Helper lemmas -/

theorem mem_opt {x p : PassName} {b : Bool} : x ∈ opt p b ↔ b = true ∧ x = p := by
  cases b <;> simp [opt]

theorem mk_map_error_of_mem {parse : String → Option (List (ModuleItem ε))}
    {is_env : Bool} {values : List (String × String)} {kv : String × String}
    {e : MkMapError} (hkv : kv ∈ values)
    (he : processEntry parse is_env kv = .error e) :
    ∃ e2, mk_map parse is_env values = .error e2 := by
  induction hkv with
  | head rest => exact ⟨e, by simp [mk_map, he]⟩
  | tail hd hmem ih =>
    rcases ih with ⟨e2, h2⟩
    cases hpe : processEntry parse is_env hd with
    | error e3 => exact ⟨e3, by simp [mk_map, hpe]⟩
    | ok entry => exact ⟨e2, by simp [mk_map, hpe, h2]⟩

theorem mk_map_ok_mem {parse : String → Option (List (ModuleItem ε))}
    {is_env : Bool} {values : List (String × String)} {m : List (String × ε)}
    {kv : String × String} {entry : String × ε}
    (h : mk_map parse is_env values = .ok m) (hkv : kv ∈ values)
    (he : processEntry parse is_env kv = .ok entry) : entry ∈ m := by
  induction hkv generalizing m with
  | head rest =>
    simp only [mk_map, he] at h
    cases hrest : mk_map parse is_env rest with
    | error e => rw [hrest] at h; cases h
    | ok m2 =>
      rw [hrest] at h
      injection h with h
      subst h
      exact List.mem_cons_self _ _
  | tail hd hmem ih =>
    cases hpe : processEntry parse is_env hd with
    | error e => simp only [mk_map, hpe] at h; cases h
    | ok entry2 =>
      simp only [mk_map, hpe] at h
      cases hrest : mk_map parse is_env _ with
      | error e => rw [hrest] at h; cases h
      | ok m2 =>
        rw [hrest] at h
        injection h with h
        subst h
        exact List.mem_cons_of_mem _ (ih hrest)

theorem checkKnownKeys_error {recognized doc : List String} {k : String}
    (hk : k ∈ doc) (hunk : k ∉ recognized) :
    ∃ msg, checkKnownKeys recognized doc = .error msg := by
  simp only [checkKnownKeys, decide_not]
  cases hfind : doc.find? (fun k2 => !decide (k2 ∈ recognized)) with
  | none =>
    exfalso
    have := List.find?_eq_none.mp hfind k hk
    simp at this
    exact hunk this
  | some k2 => exact ⟨_, rfl⟩

theorem append_last_four_split (xs : List PassName) (a b c d : PassName) :
    ∃ l, xs ++ [a, b, c, d] = l ++ [c, d] :=
  ⟨xs ++ [a, b], by simp⟩

theorem buildPassList_suffix (syn : SyntaxCfg) (tr : TransformConfig) (eo : Bool)
    (t : JscTarget) (m : Option ModuleConfig) :
    ∃ l, buildPassList syn tr eo t m = l ++ [PassName.hygiene, PassName.fixer] := by
  unfold buildPassList
  exact append_last_four_split _ _ _ _ _

theorem mem_es2018_iff (syn : SyntaxCfg) (tr : TransformConfig) (eo : Bool)
    (t : JscTarget) (m : Option ModuleConfig) :
    PassName.es2018 ∈ buildPassList syn tr eo t m ↔ t.le .es2018 = true := by
  simp [buildPassList, mem_opt]

theorem mem_es2017_iff (syn : SyntaxCfg) (tr : TransformConfig) (eo : Bool)
    (t : JscTarget) (m : Option ModuleConfig) :
    PassName.es2017 ∈ buildPassList syn tr eo t m ↔ t.le .es2017 = true := by
  simp [buildPassList, mem_opt]

theorem mem_es2016_iff (syn : SyntaxCfg) (tr : TransformConfig) (eo : Bool)
    (t : JscTarget) (m : Option ModuleConfig) :
    PassName.es2016 ∈ buildPassList syn tr eo t m ↔ t.le .es2016 = true := by
  simp [buildPassList, mem_opt]

theorem mem_es2015_iff (syn : SyntaxCfg) (tr : TransformConfig) (eo : Bool)
    (t : JscTarget) (m : Option ModuleConfig) :
    PassName.es2015 ∈ buildPassList syn tr eo t m ↔ t.le .es2015 = true := by
  simp [buildPassList, mem_opt]

theorem mem_es3_iff (syn : SyntaxCfg) (tr : TransformConfig) (eo : Bool)
    (t : JscTarget) (m : Option ModuleConfig) :
    PassName.es3 ∈ buildPassList syn tr eo t m ↔ t.le .es3 = true := by
  simp [buildPassList, mem_opt]

theorem mem_importAnalyzer_iff (syn : SyntaxCfg) (tr : TransformConfig) (eo : Bool)
    (t : JscTarget) (m : Option ModuleConfig) :
    PassName.importAnalyzer ∈ buildPassList syn tr eo t m ↔
      needInteropAnalysis m = true := by
  simp [buildPassList, mem_opt]

theorem mem_moduleWrap (syn : SyntaxCfg) (tr : TransformConfig) (eo : Bool)
    (t : JscTarget) (m : Option ModuleConfig) :
    PassName.moduleWrap (ModuleConfig.buildPass m) ∈ buildPassList syn tr eo t m := by
  simp [buildPassList]

theorem JscTarget.le_trans {a b c : JscTarget} (h1 : a.le b = true)
    (h2 : b.le c = true) : a.le c = true := by
  simp [JscTarget.le] at *
  omega

/-- The five downlevel-compatibility passes of the pipeline (lines
159‑163), paired with their milestone targets. -/
def compatMilestones : List (PassName × JscTarget) :=
  [(.es2018, .es2018), (.es2017, .es2017), (.es2016, .es2016),
   (.es2015, .es2015), (.es3, .es3)]

theorem mem_compat_iff (syn : SyntaxCfg) (tr : TransformConfig) (eo : Bool)
    (t : JscTarget) (m : Option ModuleConfig) {p : PassName} {mt : JscTarget}
    (hp : (p, mt) ∈ compatMilestones) :
    p ∈ buildPassList syn tr eo t m ↔ t.le mt = true := by
  simp [compatMilestones] at hp
  rcases hp with ⟨rfl, rfl⟩ | ⟨rfl, rfl⟩ | ⟨rfl, rfl⟩ | ⟨rfl, rfl⟩ | ⟨rfl, rfl⟩
  · exact mem_es2018_iff syn tr eo t m
  · exact mem_es2017_iff syn tr eo t m
  · exact mem_es2016_iff syn tr eo t m
  · exact mem_es2015_iff syn tr eo t m
  · exact mem_es3_iff syn tr eo t m

/-! ## Claim theorems -/

/-- A trivially failing parser, used to exercise builds whose
configurations never reach the parser. -/
def parseNone : String → Option (List (ModuleItem Nat)) := fun _ => none

/-- Fallback `BuiltConfig` for extracting the value of a successful build. -/
def builtFallback : BuiltConfig := ⟨[], SyntaxCfg.default, false, false, false⟩

/-- C1: for every valid effective configuration, the built pass pipeline
ends with the hygiene pass immediately followed by the fixer pass — the
fixer pass is last, the hygiene pass last-but-one, both unconditionally. -/
theorem c1_pipeline_ends_hygiene_then_fixer
    (parse : String → Option (List (ModuleItem ε)))
    (envVars : List (String × String)) (opts : Options)
    (config : Option Config) (b : BuiltConfig)
    (h : opts.build parse envVars config = .ok b) :
    ∃ l, b.pass = l ++ [PassName.hygiene, PassName.fixer] := by
  simp only [Options.build] at h
  split at h
  · cases h
  · injection h with h
    subst h
    exact buildPassList_suffix _ _ _ _ _

/-- Witness for C1 at a concrete configuration. -/
theorem c1_pipeline_ends_hygiene_then_fixer_witness :
    ∃ l, ((Options.build ⟨none, none⟩ parseNone [] none).toOption.getD
        builtFallback).pass = l ++ [PassName.hygiene, PassName.fixer] :=
  c1_pipeline_ends_hygiene_then_fixer parseNone [] ⟨none, none⟩ none _ rfl

/-- C2: a milestone's downlevel-compatibility pass is in the pipeline iff
the requested target is at or below that milestone; consequently
downleveling is cumulative — any target at or below a target that
includes a compatibility pass also includes it. -/
theorem c2_downlevel_iff_at_or_below_and_cumulative
    (syn : SyntaxCfg) (tr : TransformConfig) (eo : Bool) (t t2 : JscTarget)
    (m : Option ModuleConfig) (p : PassName) (mt : JscTarget)
    (hp : (p, mt) ∈ compatMilestones) :
    (p ∈ buildPassList syn tr eo t m ↔ t.le mt = true) ∧
    (t2.le t = true → p ∈ buildPassList syn tr eo t m →
      p ∈ buildPassList syn tr eo t2 m) := by
  refine ⟨mem_compat_iff syn tr eo t m hp, fun hle hmem => ?_⟩
  exact (mem_compat_iff syn tr eo t2 m hp).mpr
    (JscTarget.le_trans hle ((mem_compat_iff syn tr eo t m hp).mp hmem))

/-- Witness for C2: the es2017 pass under target es2016, downleveled
further to target es5. -/
theorem c2_downlevel_iff_at_or_below_and_cumulative_witness :
    (PassName.es2017 ∈ buildPassList SyntaxCfg.default TransformConfig.default
        false .es2016 none ↔ JscTarget.le .es2016 .es2017 = true) ∧
    (JscTarget.le .es5 .es2016 = true →
      PassName.es2017 ∈ buildPassList SyntaxCfg.default TransformConfig.default
        false .es2016 none →
      PassName.es2017 ∈ buildPassList SyntaxCfg.default TransformConfig.default
        false .es5 none) :=
  c2_downlevel_iff_at_or_below_and_cumulative SyntaxCfg.default
    TransformConfig.default false .es2016 .es5 none .es2017 .es2017 (by decide)

/-- C3: commonjs/amd/umd include the import-interop analysis pass iff
their noInterop flag is false, and with no module format configured the
wrapping pass is the no-op pass and the interop analysis pass is
excluded. -/
theorem c3_module_format_interop_selection
    (syn : SyntaxCfg) (tr : TransformConfig) (eo : Bool) (t : JscTarget)
    (cjs : CommonJsConfig) (ca : AmdConfig) (cu : UmdConfig) :
    (PassName.importAnalyzer ∈
        buildPassList syn tr eo t (some (ModuleConfig.commonjs cjs)) ↔
      cjs.no_interop = false) ∧
    (PassName.importAnalyzer ∈
        buildPassList syn tr eo t (some (ModuleConfig.amd ca)) ↔
      ca.config.no_interop = false) ∧
    (PassName.importAnalyzer ∈
        buildPassList syn tr eo t (some (ModuleConfig.umd cu)) ↔
      cu.config.no_interop = false) ∧
    ModuleConfig.buildPass none = ModuleWrapPass.noop ∧
    PassName.moduleWrap ModuleWrapPass.noop ∈ buildPassList syn tr eo t none ∧
    PassName.importAnalyzer ∉ buildPassList syn tr eo t none := by
  refine ⟨?_, ?_, ?_, rfl, ?_, ?_⟩
  · rw [mem_importAnalyzer_iff]
    simp [needInteropAnalysis]
  · rw [mem_importAnalyzer_iff]
    simp [needInteropAnalysis]
  · rw [mem_importAnalyzer_iff]
    simp [needInteropAnalysis]
  · have := mem_moduleWrap syn tr eo t none
    simpa [ModuleConfig.buildPass] using this
  · intro hmem
    have := (mem_importAnalyzer_iff syn tr eo t none).mp hmem
    simp [needInteropAnalysis] at this

/-- C10: neither es2019 nor es5 has a compatibility pass of its own: a
target of es2019 includes none of the five compatibility passes, and the
targets es5 and es2015 include exactly the same ones — es2018 down to
es2015, without the es3 pass. -/
theorem c10_es2019_empty_and_es5_equals_es2015
    (syn : SyntaxCfg) (tr : TransformConfig) (eo : Bool)
    (m : Option ModuleConfig) :
    (PassName.es2018 ∉ buildPassList syn tr eo .es2019 m ∧
     PassName.es2017 ∉ buildPassList syn tr eo .es2019 m ∧
     PassName.es2016 ∉ buildPassList syn tr eo .es2019 m ∧
     PassName.es2015 ∉ buildPassList syn tr eo .es2019 m ∧
     PassName.es3 ∉ buildPassList syn tr eo .es2019 m) ∧
    (PassName.es2018 ∈ buildPassList syn tr eo .es5 m ∧
     PassName.es2017 ∈ buildPassList syn tr eo .es5 m ∧
     PassName.es2016 ∈ buildPassList syn tr eo .es5 m ∧
     PassName.es2015 ∈ buildPassList syn tr eo .es5 m ∧
     PassName.es3 ∉ buildPassList syn tr eo .es5 m) ∧
    (PassName.es2018 ∈ buildPassList syn tr eo .es2015 m ∧
     PassName.es2017 ∈ buildPassList syn tr eo .es2015 m ∧
     PassName.es2016 ∈ buildPassList syn tr eo .es2015 m ∧
     PassName.es2015 ∈ buildPassList syn tr eo .es2015 m ∧
     PassName.es3 ∉ buildPassList syn tr eo .es2015 m) := by
  refine ⟨⟨?_, ?_, ?_, ?_, ?_⟩, ⟨?_, ?_, ?_, ?_, ?_⟩, ⟨?_, ?_, ?_, ?_, ?_⟩⟩
  · intro h; exact absurd ((mem_es2018_iff _ _ _ _ _).mp h) (by decide)
  · intro h; exact absurd ((mem_es2017_iff _ _ _ _ _).mp h) (by decide)
  · intro h; exact absurd ((mem_es2016_iff _ _ _ _ _).mp h) (by decide)
  · intro h; exact absurd ((mem_es2015_iff _ _ _ _ _).mp h) (by decide)
  · intro h; exact absurd ((mem_es3_iff _ _ _ _ _).mp h) (by decide)
  · exact (mem_es2018_iff _ _ _ _ _).mpr (by decide)
  · exact (mem_es2017_iff _ _ _ _ _).mpr (by decide)
  · exact (mem_es2016_iff _ _ _ _ _).mpr (by decide)
  · exact (mem_es2015_iff _ _ _ _ _).mpr (by decide)
  · intro h; exact absurd ((mem_es3_iff _ _ _ _ _).mp h) (by decide)
  · exact (mem_es2018_iff _ _ _ _ _).mpr (by decide)
  · exact (mem_es2017_iff _ _ _ _ _).mpr (by decide)
  · exact (mem_es2016_iff _ _ _ _ _).mpr (by decide)
  · exact (mem_es2015_iff _ _ _ _ _).mpr (by decide)
  · intro h; exact absurd ((mem_es3_iff _ _ _ _ _).mp h) (by decide)

/-- A model parser whose every parse yields two expression statements,
as the real parser does on a source text such as a pair of
semicolon-separated expressions. -/
def parseTwoStmts : String → Option (List (ModuleItem Nat)) := fun _ =>
  some [.stmt (.expr 1), .stmt (.expr 2)]

/-- C4 counterexample: an entry whose literal text parses to TWO
expression statements — not a single expression statement — is accepted
silently (the last expression is kept) instead of aborting with an
error. -/
theorem c4_counterexample_multi_statement_accepted :
    (parseTwoStmts "1;2").map List.length = some 2 ∧
    mk_map parseTwoStmts false [("FOO", "1;2")] = .ok [("FOO", 2)] :=
  ⟨rfl, rfl⟩

/-- C4 (amended): if any entry's (possibly quoted) literal text fails to
parse, or parses to a module whose LAST item is not an expression
statement, building the map aborts with an error; the parse-failure
error names both the identifier and the raw text, while the
not-an-expression error names only the raw text. A parse yielding
several statements whose last is an expression statement is accepted,
keeping that last expression. -/
theorem c4_malformed_literal_aborts
    (parse : String → Option (List (ModuleItem ε)))
    (values : List (String × String)) (is_env : Bool) (k v : String)
    (hmem : (k, v) ∈ values)
    (hbad : parse (wrapGlobal is_env v) = none ∨
      ∃ body, parse (wrapGlobal is_env v) = some body ∧
        ∀ e : ε, body.getLast? ≠ some (ModuleItem.stmt (MStmt.expr e))) :
    (∃ e2, mk_map parse is_env values = .error e2) ∧
    (processEntry parse is_env (k, v) =
        .error (.parseFailed k (wrapGlobal is_env v)) ∨
      processEntry parse is_env (k, v) =
        .error (.notExpression (wrapGlobal is_env v))) := by
  have hpe : processEntry parse is_env (k, v) =
        .error (.parseFailed k (wrapGlobal is_env v)) ∨
      processEntry parse is_env (k, v) =
        .error (.notExpression (wrapGlobal is_env v)) := by
    rcases hbad with hnone | ⟨body, hsome, hlast⟩
    · left
      simp [processEntry, hnone]
    · right
      cases hl : body.getLast? with
      | none => simp [processEntry, hsome, hl]
      | some item =>
        cases item with
        | moduleDecl => simp [processEntry, hsome, hl]
        | stmt s =>
          cases s with
          | other => simp [processEntry, hsome, hl]
          | expr e => exact absurd hl (hlast e)
  refine ⟨?_, hpe⟩
  rcases hpe with h | h
  · exact mk_map_error_of_mem hmem h
  · exact mk_map_error_of_mem hmem h

/-- Witness for C4 (amended): a literal that fails to parse aborts the
map build with an error naming the identifier and the text. -/
theorem c4_malformed_literal_aborts_witness :
    (∃ e2, mk_map parseNone false [("BAD", "+++")] = .error e2) ∧
    (processEntry parseNone false ("BAD", "+++") =
        .error (.parseFailed "BAD" (wrapGlobal false "+++")) ∨
      processEntry parseNone false ("BAD", "+++") =
        .error (.notExpression (wrapGlobal false "+++"))) :=
  c4_malformed_literal_aborts parseNone [("BAD", "+++")] false "BAD" "+++"
    (by simp) (Or.inl rfl)

/-- C5 (code-bug evidence): the `Options` deserializer generated for the
`deny_unknown_fields` + `flatten` combination never produces an
unknown-key error: the bogus top-level key `helpres` lands in the
flatten buffer and is silently dropped, and the document is accepted —
contradicting the claim and the intent of the `deny_unknown_fields`
attribute on line 30. Only a bare `Config` (`.swcrc`) document, which
has no flatten field, rejects unknown top-level keys. -/
theorem c5_options_unknown_key_silently_dropped (doc : List String) :
    Options.deserializeKeys doc = .ok () ∧
    Options.droppedKeys ["helpres"] = ["helpres"] ∧
    Options.deserializeKeys ["helpres"] = .ok () ∧
    Config.deserializeKeys ["helpres"] = .error "unknown field helpres" ∧
    (∀ doc2 k, k ∈ doc2 → k ∉ configRecognizedKeys →
      ∃ msg, Config.deserializeKeys doc2 = .error msg) :=
  ⟨rfl, by decide, rfl, rfl,
   fun _doc2 _k hk hunk => checkKnownKeys_error hk hunk⟩

/-- C6 counterexample: when the optimizer is configured without a
`globals` object (so the `envs` field is certainly omitted),
`Options::build` falls back to the `#[derive(Default)]` value, whose
`envs` set is empty — it contains neither NODE_ENV nor SWC_ENV. -/
theorem c6_counterexample_derived_default_envs_empty :
    resolveGlobals (some { globals := none }) = GlobalPassOption.defaultDerived ∧
    (resolveGlobals (some { globals := none })).envs = [] ∧
    (resolveGlobals (some { globals := none })).envs.contains "NODE_ENV" = false ∧
    (resolveGlobals (some { globals := none })).envs.contains "SWC_ENV" = false ∧
    resolveGlobals none = GlobalPassOption.defaultDerived :=
  ⟨rfl, rfl, rfl, rfl, rfl⟩

/-- C6 (amended): when a `GlobalPassOption` object is itself present in
the document and only its `envs` field is omitted, deserialization fills
in the serde default, which contains NODE_ENV and SWC_ENV; but when the
whole optimizer-globals object is absent, the build falls back to the
derived default whose `envs` is empty. -/
theorem c6_deserialized_default_envs (r : GlobalPassOptionRaw)
    (h : r.envs = none) :
    (deserializeGlobalPassOption r).envs = default_envs ∧
    "NODE_ENV" ∈ (deserializeGlobalPassOption r).envs ∧
    "SWC_ENV" ∈ (deserializeGlobalPassOption r).envs ∧
    GlobalPassOption.defaultDerived.envs = [] := by
  refine ⟨?_, ?_, ?_, rfl⟩ <;>
    simp [deserializeGlobalPassOption, h, default_envs]

/-- Witness for C6 (amended) at the empty raw document. -/
theorem c6_deserialized_default_envs_witness :
    (deserializeGlobalPassOption ⟨none, none⟩).envs = default_envs ∧
    "NODE_ENV" ∈ (deserializeGlobalPassOption ⟨none, none⟩).envs ∧
    "SWC_ENV" ∈ (deserializeGlobalPassOption ⟨none, none⟩).envs ∧
    GlobalPassOption.defaultDerived.envs = [] :=
  c6_deserialized_default_envs ⟨none, none⟩ rfl

/-- C7: a configured environment variable that is set at build time is
wrapped in quotes before parsing, and, whenever the parser parses the
quoted text as a string literal of the original value, the resulting
substitution entry is that string literal — the value is never handed to
the parser unquoted. -/
theorem c7_env_value_inlined_as_string_literal
    (parse : String → Option (List (ModuleItem EsExpr)))
    (envVars : List (String × String)) (g : GlobalPassOption)
    (k v : String) (ig : InlineGlobals EsExpr)
    (hmem : (k, v) ∈ envVars) (hk : g.envs.contains k = true)
    (hparse : parse (squote ++ v ++ squote) =
      some [ModuleItem.stmt (MStmt.expr (EsExpr.str v))])
    (hbuild : g.build parse envVars = .ok ig) :
    wrapGlobal true v = squote ++ v ++ squote ∧
    processEntry parse true (k, v) = .ok (k, EsExpr.str v) ∧
    (k, EsExpr.str v) ∈ ig.envs := by
  have hpe : processEntry parse true (k, v) = .ok (k, EsExpr.str v) := by
    simp [processEntry, wrapGlobal, hparse]
  refine ⟨rfl, hpe, ?_⟩
  cases hg : mk_map parse false g.vars with
  | error e =>
    simp only [GlobalPassOption.build, hg] at hbuild
    cases hbuild
  | ok gl =>
    cases he : mk_map parse true
        (envVars.filter fun kv => g.envs.contains kv.1) with
    | error e =>
      simp only [GlobalPassOption.build, hg, he] at hbuild
      cases hbuild
    | ok evs =>
      simp only [GlobalPassOption.build, hg, he] at hbuild
      injection hbuild with hbuild
      subst hbuild
      exact mk_map_ok_mem he (List.mem_filter.mpr ⟨hmem, hk⟩) hpe

/-- A model parser that parses the quoted text for the runtime value
`production` as the corresponding string-literal expression statement. -/
def parseProd : String → Option (List (ModuleItem EsExpr)) := fun s =>
  if s = squote ++ "production" ++ squote then
    some [.stmt (.expr (.str "production"))]
  else none

/-- Witness for C7: NODE_ENV set to `production` with
`envs: ["NODE_ENV"]` inlines the string literal `production`. -/
theorem c7_env_value_inlined_as_string_literal_witness :
    wrapGlobal true "production" = squote ++ "production" ++ squote ∧
    processEntry parseProd true ("NODE_ENV", "production") =
      .ok ("NODE_ENV", EsExpr.str "production") ∧
    ("NODE_ENV", EsExpr.str "production") ∈
      (InlineGlobals.mk [] [("NODE_ENV", EsExpr.str "production")]).envs :=
  c7_env_value_inlined_as_string_literal parseProd
    [("NODE_ENV", "production")] ⟨[], ["NODE_ENV"]⟩ "NODE_ENV" "production"
    ⟨[], [("NODE_ENV", EsExpr.str "production")]⟩ (by simp) rfl rfl rfl

/-- C8: merge is idempotent for every full-replace field type: parser
syntax, React options, const-modules config, optimizer globals, and the
module-format choice. -/
theorem c8_replace_merge_idempotent (s : SyntaxCfg) (r : ReactOptions)
    (cm : ConstModulesConfig) (g : GlobalPassOption)
    (m : Option ModuleConfig) :
    s.merge s = s ∧ r.merge r = r ∧ cm.merge cm = cm ∧ g.merge g = g ∧
    mergeModuleConfig m m = m := by
  refine ⟨rfl, rfl, rfl, rfl, ?_⟩
  cases m <;> rfl

/-- C9 counterexample: `sourceMaps: false` is a present boolean field,
yet the built source-maps flag resolves to `false`, not truthy. -/
theorem c9_counterexample_bool_false_resolves_false :
    (Options.mk none (some (SourceMapsConfig.bool false))).source_maps.isSome
      = true ∧
    (Options.build ⟨none, some (SourceMapsConfig.bool false)⟩ parseNone []
        none).map BuiltConfig.source_maps = .ok false :=
  ⟨rfl, rfl⟩

/-- C9 (amended): the built source-maps flag is `true` for any path
string, the boolean's own value for a boolean, and `false` when the
field is absent. -/
theorem c9_source_maps_resolution
    (parse : String → Option (List (ModuleItem ε)))
    (envVars : List (String × String)) (opts : Options)
    (config : Option Config) (b : BuiltConfig)
    (h : opts.build parse envVars config = .ok b) :
    b.source_maps = match opts.source_maps with
      | some (SourceMapsConfig.bool v) => v
      | some (SourceMapsConfig.str _) => true
      | none => false := by
  simp only [Options.build] at h
  split at h
  · cases h
  · injection h with h
    subst h
    rfl

/-- Witness for C9 (amended): a path string resolves to `true`. -/
theorem c9_source_maps_resolution_witness :
    ((Options.build ⟨none, some (SourceMapsConfig.str "out.map")⟩ parseNone []
        none).toOption.getD builtFallback).source_maps = true :=
  c9_source_maps_resolution parseNone []
    ⟨none, some (SourceMapsConfig.str "out.map")⟩ none _ rfl

end NodeSwc
